import Mathlib

/- Formal model of the `mars_time` package's conversion core
   (src/mars_time/retimers.py and src/mars_time/constants.py).

   Conventions of the embedding:
   * Earth instants are rational numbers of seconds since the J2000 epoch
     (2000-01-01T12:00:00 UTC); `datetime` subtraction/addition in the source
     is exact arithmetic on these instants, and `timedelta.total_seconds()`
     is the identity in this representation.
   * Python floats are modelled as exact rationals for the calendar
     arithmetic, and as real numbers for the trigonometric solar-longitude
     engine.
   * Python exceptions are modelled with `Except PyErr`.
-/

/-- Python exception kinds relevant to the modelled code paths. -/
inductive PyErr where
  | typeError
  | valueError
  | keyError
  | indexError
deriving DecidableEq

/-- Decidable equality of modelled Python results, so concrete runs of the modelled
functions can be checked by `decide`. -/
instance {e a : Type} [DecidableEq e] [DecidableEq a] : DecidableEq (Except e a) := fun x y =>
  match x, y with
  | .ok u, .ok v =>
      if h : u = v then isTrue (by rw [h]) else isFalse (by intro hc; cases hc; exact h rfl)
  | .error u, .error v =>
      if h : u = v then isTrue (by rw [h]) else isFalse (by intro hc; cases hc; exact h rfl)
  | .ok _, .error _ => isFalse (by intro hc; cases hc)
  | .error _, .ok _ => isFalse (by intro hc; cases hc)

/-- Values of `constants.mars_year_start_days_since_j2000` (src/mars_time/constants.py
lines 7-228) for Mars years -99, -98, ..., 100 in that (insertion) order: the days
since J2000 at which each tabulated Mars year starts. -/
def marsYearStartDaysList : List ℚ := [
  -85033.149, -84346.147, -83659.157, -82972.202, -82285.232,
  -81598.256, -80911.313, -80224.337, -79537.345, -78850.365,
  -78163.396, -77476.419, -76789.479, -76102.520, -75415.524,
  -74728.550, -74041.600, -73354.610, -72667.640, -71980.690,
  -71293.710, -70606.720, -69919.760, -69232.790, -68545.820,
  -67858.880, -67171.880, -66484.880, -65797.930, -65110.960,
  -64423.980, -63737.040, -63050.080, -62363.090, -61676.100,
  -60989.140, -60302.160, -59615.210, -58928.250, -58241.260,
  -57554.280, -56867.320, -56180.340, -55493.360, -54806.420,
  -54119.440, -53432.450, -52745.490, -52058.520, -51371.550,
  -50684.610, -49997.630, -49310.620, -48623.660, -47936.700,
  -47249.720, -46562.760, -45875.810, -45188.820, -44501.830,
  -43814.860, -43127.880, -42440.920, -41753.980, -41066.997,
  -40380.010, -39693.050, -39006.090, -38319.090, -37632.150,
  -36945.180, -36258.190, -35571.220, -34884.260, -34197.270,
  -33510.330, -32823.360, -32136.350, -31449.370, -30762.420,
  -30075.450, -29388.490, -28701.540, -28014.560, -27327.570,
  -26640.590, -25953.620, -25266.650, -24579.710, -23892.740,
  -23205.740, -22518.780, -21831.820, -21144.820, -20457.870,
  -19770.910, -19083.920, -18396.940, -17709.980, -17023.002,
  -16336.050, -15649.090, -14962.090, -14275.110, -13588.160,
  -12901.180, -12214.210, -11527.270, -10840.290, -10153.300,
  -9466.317, -8779.349, -8092.373, -7405.432, -6718.466,
  -6031.469, -5344.497, -4657.544, -3970.550, -3283.590,
  -2596.642, -1909.654, -1222.672, -535.714, 151.264,
  838.229, 1525.176, 2212.173, 2899.166, 3586.124,
  4273.090, 4960.070, 5647.012, 6333.979, 7020.971,
  7707.956, 8394.918, 9081.896, 9768.843, 10455.797,
  11142.793, 11829.774, 12516.727, 13203.716, 13890.691,
  14577.634, 15264.618, 15951.609, 16638.569, 17325.539,
  18012.511, 18699.451, 19386.438, 20073.435, 20760.397,
  21447.355, 22134.338, 22821.286, 23508.242, 24195.234,
  24882.228, 25569.193, 26256.173, 26943.131, 27630.078,
  28317.068, 29004.055, 29691.009, 30377.985, 31064.971,
  31751.911, 32438.882, 33125.875, 33812.839, 34499.801,
  35186.780, 35873.724, 36560.703, 37247.706, 37934.680,
  38621.635, 39308.617, 39995.576, 40682.523, 41369.510,
  42056.507, 42743.474, 43430.445, 44117.411, 44804.349,
  45491.328, 46178.320, 46865.281, 47552.248, 48239.246,
  48926.192, 49613.155, 50300.150, 50987.124, 51674.083]

/-- Lookup in the `mars_year_start_days_since_j2000` dict: the dict's keys are exactly
the integers -99..100, so the lookup of year `y` is the list entry at index `y + 99`
and any other key is a `KeyError` (modelled as `none`). -/
def mars_year_start_days_since_j2000 (year : Int) : Option Rat :=
  if -99 <= year ∧ year <= 100 then
    some (marsYearStartDaysList.getD (year + 99).toNat 0)
  else none

/-- The dict's keys in insertion order, as iterated by `datetime_to_mars_time`
(`[f for f in mars_year_starting_datetimes().keys()]`). -/
def tabulated_mars_years : List Int := (List.range 200).map (fun n : Nat => (n : Int) - 99)

/-- Model of `constants.seconds_per_day` (src/mars_time/constants.py line 242). -/
def seconds_per_day : Rat := 86400

/-- Model of `constants.hours_per_sol` (src/mars_time/constants.py line 246). -/
def hours_per_sol : Rat := 24.6597

/-- Model of `constants.seconds_per_sol` (src/mars_time/constants.py line 250). -/
def seconds_per_sol : Rat := hours_per_sol / 24 * seconds_per_day

/-- Modelled from the spec: src/mars_time/retimers.py imports `sols_per_martian_year`
from `mars_time.constants`, but the revision of constants.py under src/ does not
define that name. Per the spec (sections 3 and 6) it is the package's average
sols-per-Mars-year constant, which constants.py (line 413) defines as
`sols_per_year = 668.5930632493113`, "the average number of sols per Mars year
between Mars years -99 and 99". That value is used here. -/
def sols_per_martian_year : Rat := 668.5930632493113

/-- Model of `constants.perihelion_sol` (src/mars_time/constants.py line 280). -/
def perihelion_sol : Rat := 484.77673721217315

/-- Model of `constants.mars_year_starting_datetimes()` (src/mars_time/constants.py lines
360-381): `j2000 + timedelta(days=table[year])`, i.e. the instant
`table[year] * 86400` seconds since J2000. -/
def mars_year_starting_datetimes (year : Int) : Option Rat :=
  (mars_year_start_days_since_j2000 year).map (fun d => d * seconds_per_day)

/-- Model of `constants.sols_per_mars_year()[year]` (src/mars_time/constants.py lines 384-410):
`(dt[year + 1] - dt[year]).total_seconds() / seconds_per_sol`. The same expression is
computed inline by `MarsTime._validate_sol` (src/mars_time/retimers.py line 111). -/
def sols_per_mars_year (year : Int) : Option Rat :=
  match mars_year_starting_datetimes (year + 1), mars_year_starting_datetimes year with
  | some nxt, some cur => some ((nxt - cur) / seconds_per_sol)
  | _, _ => none

/-- The `MarsTime` value type (src/mars_time/retimers.py lines 11-259): a Mars year
and a sol of that year. Only validated instances are produced by `MarsTime.make`. -/
structure MarsTime where
  year : Int
  sol : Rat
deriving DecidableEq

/-- The `MarsTimeDelta` value type (src/mars_time/retimers.py lines 262-409). -/
structure MarsTimeDelta where
  year : Rat
  sol : Rat
deriving DecidableEq

/-- Model of `MarsTime._validate_year` (src/mars_time/retimers.py lines 85-99), after the
numeric conversion (the embedding takes an integer directly): returns the year if
`-99 <= year <= 99`, else raises `ValueError`. -/
def MarsTime.validate_year (year : Int) : Except PyErr Int :=
  if -99 <= year ∧ year <= 99 then .ok year else .error .valueError

/-- Model of `MarsTime._validate_sol` (src/mars_time/retimers.py lines 101-116), after the
numeric conversion: computes `sols_per_year` for the (already validated) year from
the starting-datetimes table and accepts `0 <= sol <= sols_per_year` (note: the
source's bound check is inclusive on both ends), else raises `ValueError`. A missing
table key would be a `KeyError` from the dict lookup. -/
def MarsTime.validate_sol (year : Int) (sol : Rat) : Except PyErr Rat :=
  match sols_per_mars_year year with
  | some sols_per_year => if 0 <= sol ∧ sol <= sols_per_year then .ok sol else .error .valueError
  | none => .error .keyError

/-- Model of `MarsTime.__init__` (src/mars_time/retimers.py lines 81-83): validates the year,
then validates the sol against that year. -/
def MarsTime.make (year : Int) (sol : Rat) : Except PyErr MarsTime := do
  let y <- MarsTime.validate_year year
  let s <- MarsTime.validate_sol y sol
  .ok (MarsTime.mk y s)

/-- Model of `MarsTimeDelta.years` (src/mars_time/retimers.py lines 349-357):
`year + sol / sols_per_martian_year`. -/
def MarsTimeDelta.years (d : MarsTimeDelta) : Rat := d.year + d.sol / sols_per_martian_year

/-- Model of `MarsTime.__add__` with a `MarsTimeDelta` (src/mars_time/retimers.py lines
235-242): forms the fractional year `year + sol / sols_per_martian_year + other.years`,
then takes `int(nfy // 1)` (the floor) as the new year and `(nfy % 1) *
sols_per_martian_year` as the new sol, and builds a `MarsTime` from them. -/
def MarsTime.add (mt : MarsTime) (other : MarsTimeDelta) : Except PyErr MarsTime :=
  let new_fractional_year : Rat := (mt.year : Rat) + mt.sol / sols_per_martian_year + other.years
  MarsTime.make (Int.floor new_fractional_year)
    ((new_fractional_year - Int.floor new_fractional_year) * sols_per_martian_year)

/-- Model of `MarsTime.__eq__` (src/mars_time/retimers.py lines 255-259) on two `MarsTime`
values: exact equality of the year and of the sol. -/
def MarsTime.beq (a b : MarsTime) : Bool := a.year == b.year && a.sol == b.sol

/-- Order comparison of two `MarsTime` values: the class defines `__eq__` but none of
`__lt__`, `__le__`, `__gt__`, `__ge__` (src/mars_time/retimers.py lines 11-259), and no
`functools.total_ordering` decorator, so Python's `<`, `<=`, `>`, `>=` on two `MarsTime`
values raise `TypeError` (unorderable types). -/
def MarsTime.lt (_ _ : MarsTime) : Except PyErr Bool := .error .typeError

/-- The tabulated year-start instant as seconds since J2000
(`mars_year_starting_datetimes()[year]` in seconds): a total accessor, with junk
value 0 outside the tabulated range (inside the modelled code it is only applied
to tabulated years, where the lookup succeeds). -/
def startSeconds (year : Int) : Rat := (mars_year_starting_datetimes year).getD 0

/-- Model of `retimers.datetime_to_mars_time` (src/mars_time/retimers.py lines 412-460): pairs
each tabulated year with the elapsed seconds from that year's start to the input,
keeps the pairs with non-negative elapsed seconds, and takes the last one (`[-1]` on
an empty list is an `IndexError`); the result is `MarsTime(year, 0) +
MarsTimeDelta(sol=elapsed_seconds / seconds_per_sol)`. The `.getD 0` is only ever
used at tabulated keys, where the lookup is `some`. -/
def datetime_to_mars_time (t : Rat) : Except PyErr MarsTime :=
  let pairs := tabulated_mars_years.map (fun y => (y, t - startSeconds y))
  match (pairs.filter (fun p => decide (0 <= p.2))).getLast? with
  | none => .error .indexError
  | some (mars_year, elapsed_seconds) => do
      let mt <- MarsTime.make mars_year 0
      MarsTime.add mt (MarsTimeDelta.mk 0 (elapsed_seconds / seconds_per_sol))

/-- Model of `retimers.mars_time_to_datetime` (src/mars_time/retimers.py lines 463-497):
`starting_datetime + timedelta(seconds=sol * seconds_per_sol)`; a year absent from
the table would raise `KeyError`. -/
def mars_time_to_datetime (mt : MarsTime) : Except PyErr Rat :=
  match mars_year_starting_datetimes mt.year with
  | some starting_datetime => .ok (starting_datetime + mt.sol * seconds_per_sol)
  | none => .error .keyError


/-  Facts about the epoch table and the derived helper lemmas used by the claim
    theorems. -/

lemma daysList_length : marsYearStartDaysList.length = 200 := rfl

set_option maxRecDepth 4000 in
lemma daysList_chain : List.Chain' (fun a b : Rat => a < b) marsYearStartDaysList := by
  unfold marsYearStartDaysList
  norm_num [List.chain'_cons]

lemma daysList_get_lt (i j : Fin marsYearStartDaysList.length) (hij : i < j) :
    marsYearStartDaysList.get i < marsYearStartDaysList.get j :=
  List.pairwise_iff_get.mp (List.chain'_iff_pairwise.mp daysList_chain) i j hij

lemma daysList_getD_lt (i j : Nat) (hj : j < 200) (hij : i < j) :
    marsYearStartDaysList.getD i 0 < marsYearStartDaysList.getD j 0 := by
  have hi : i < marsYearStartDaysList.length := by rw [daysList_length]; omega
  have hj' : j < marsYearStartDaysList.length := by rw [daysList_length]; omega
  rw [List.getD_eq_getElem?_getD, List.getD_eq_getElem?_getD, List.getElem?_eq_getElem hi,
    List.getElem?_eq_getElem hj']
  have h := daysList_get_lt (Fin.mk i hi) (Fin.mk j hj') hij
  rw [List.get_eq_getElem, List.get_eq_getElem] at h
  exact h

lemma seconds_per_day_pos : (0 : Rat) < seconds_per_day := by norm_num [seconds_per_day]

lemma seconds_per_sol_pos : (0 : Rat) < seconds_per_sol := by
  norm_num [seconds_per_sol, hours_per_sol, seconds_per_day]

lemma sols_per_martian_year_pos : (0 : Rat) < sols_per_martian_year := by
  norm_num [sols_per_martian_year]

lemma mars_year_starting_datetimes_eq (y : Int) (h1 : -99 <= y) (h2 : y <= 100) :
    mars_year_starting_datetimes y = some (startSeconds y) := by
  unfold startSeconds mars_year_starting_datetimes mars_year_start_days_since_j2000
  rw [if_pos (And.intro h1 h2)]
  rfl

lemma startSeconds_eq (y : Int) (h1 : -99 <= y) (h2 : y <= 100) :
    startSeconds y = marsYearStartDaysList.getD (y + 99).toNat 0 * seconds_per_day := by
  unfold startSeconds mars_year_starting_datetimes mars_year_start_days_since_j2000
  rw [if_pos (And.intro h1 h2)]
  rfl

lemma startSeconds_lt (a b : Int) (ha : -99 <= a) (hab : a < b) (hb : b <= 100) :
    startSeconds a < startSeconds b := by
  rw [startSeconds_eq a ha (by omega), startSeconds_eq b (by omega) hb]
  have h := daysList_getD_lt (a + 99).toNat (b + 99).toNat (by omega) (by omega)
  exact mul_lt_mul_of_pos_right h seconds_per_day_pos

lemma startSeconds_le (a b : Int) (ha : -99 <= a) (hab : a <= b) (hb : b <= 100) :
    startSeconds a <= startSeconds b := by
  rcases lt_or_eq_of_le hab with h | h
  · exact le_of_lt (startSeconds_lt a b ha h hb)
  · rw [h]

lemma sols_per_mars_year_eq (y : Int) (h1 : -99 <= y) (h2 : y <= 99) :
    sols_per_mars_year y = some ((startSeconds (y + 1) - startSeconds y) / seconds_per_sol) := by
  unfold sols_per_mars_year
  rw [mars_year_starting_datetimes_eq (y + 1) (by omega) (by omega),
    mars_year_starting_datetimes_eq y h1 (by omega)]

lemma sols_per_mars_year_nonneg (y : Int) (h1 : -99 <= y) (h2 : y <= 99) :
    0 <= (startSeconds (y + 1) - startSeconds y) / seconds_per_sol := by
  have h := startSeconds_lt y (y + 1) h1 (by omega) (by omega)
  exact div_nonneg (by linarith) (le_of_lt seconds_per_sol_pos)

lemma validate_year_ok (y : Int) (h1 : -99 <= y) (h2 : y <= 99) :
    MarsTime.validate_year y = .ok y := by
  unfold MarsTime.validate_year
  rw [if_pos (And.intro h1 h2)]

lemma make_eq (y : Int) (s : Rat) (h1 : -99 <= y) (h2 : y <= 99) :
    MarsTime.make y s =
      if 0 <= s ∧ s <= (startSeconds (y + 1) - startSeconds y) / seconds_per_sol
      then .ok (MarsTime.mk y s) else .error .valueError := by
  unfold MarsTime.make
  rw [validate_year_ok y h1 h2]
  show MarsTime.validate_sol y s >>= (fun t => Except.ok (MarsTime.mk y t)) = _
  unfold MarsTime.validate_sol
  rw [sols_per_mars_year_eq y h1 h2]
  show (if 0 <= s ∧ s <= (startSeconds (y + 1) - startSeconds y) / seconds_per_sol
      then Except.ok s else Except.error PyErr.valueError) >>=
      (fun t => Except.ok (MarsTime.mk y t)) = _
  by_cases h : 0 <= s ∧ s <= (startSeconds (y + 1) - startSeconds y) / seconds_per_sol
  · rw [if_pos h, if_pos h]
    rfl
  · rw [if_neg h, if_neg h]
    rfl

lemma make_ok (y : Int) (s : Rat) (h1 : -99 <= y) (h2 : y <= 99) (h3 : 0 <= s)
    (h4 : s <= (startSeconds (y + 1) - startSeconds y) / seconds_per_sol) :
    MarsTime.make y s = .ok (MarsTime.mk y s) := by
  rw [make_eq y s h1 h2, if_pos (And.intro h3 h4)]

lemma sols_per_martian_year_ne : sols_per_martian_year ≠ 0 :=
  ne_of_gt sols_per_martian_year_pos

/-- Evaluation of `MarsTime.__add__` when the fractional-year arithmetic stays inside
the current year: for a delta with no year part, if `0 <= sol + dsol <
sols_per_martian_year` then the floor of the fractional year is the current year and
the resulting sol is exactly `sol + dsol`. -/
lemma add_eval_stay (y : Int) (s ds : Rat) (h0 : 0 <= s + ds)
    (h1 : s + ds < sols_per_martian_year) :
    MarsTime.add (MarsTime.mk y s) (MarsTimeDelta.mk 0 ds) = MarsTime.make y (s + ds) := by
  unfold MarsTime.add MarsTimeDelta.years
  dsimp only
  have hne := sols_per_martian_year_ne
  have hfy : (y : Rat) + s / sols_per_martian_year + (0 + ds / sols_per_martian_year) =
      (y : Rat) + (s + ds) / sols_per_martian_year := by
    field_simp
    ring
  rw [hfy]
  have hfloor : Int.floor ((y : Rat) + (s + ds) / sols_per_martian_year) = y := by
    rw [Int.floor_int_add]
    have h2 : Int.floor ((s + ds) / sols_per_martian_year) = 0 := by
      rw [Int.floor_eq_zero_iff]
      constructor
      · exact div_nonneg h0 (le_of_lt sols_per_martian_year_pos)
      · rw [div_lt_one sols_per_martian_year_pos]
        exact h1
    rw [h2, add_zero]
  rw [hfloor]
  have hsol : ((y : Rat) + (s + ds) / sols_per_martian_year - (y : Int)) *
      sols_per_martian_year = s + ds := by
    field_simp
    ring
  rw [hsol]

/-- Evaluation of `MarsTime.__add__` when the fractional-year arithmetic rolls over
exactly one (average) year boundary: for `sols_per_martian_year <= sol + dsol <
2 * sols_per_martian_year`, the year is incremented and `sols_per_martian_year` is
subtracted from the sol, regardless of the actual length of the current year. -/
lemma add_eval_roll (y : Int) (s ds : Rat) (h0 : sols_per_martian_year <= s + ds)
    (h1 : s + ds < 2 * sols_per_martian_year) :
    MarsTime.add (MarsTime.mk y s) (MarsTimeDelta.mk 0 ds) =
      MarsTime.make (y + 1) (s + ds - sols_per_martian_year) := by
  unfold MarsTime.add MarsTimeDelta.years
  dsimp only
  have hne := sols_per_martian_year_ne
  have hfy : (y : Rat) + s / sols_per_martian_year + (0 + ds / sols_per_martian_year) =
      (y : Rat) + (s + ds) / sols_per_martian_year := by
    field_simp
    ring
  rw [hfy]
  have hfloor : Int.floor ((y : Rat) + (s + ds) / sols_per_martian_year) = y + 1 := by
    rw [Int.floor_int_add]
    have h2 : Int.floor ((s + ds) / sols_per_martian_year) = 1 := by
      rw [Int.floor_eq_iff]
      constructor
      · push_cast
        rw [le_div_iff₀ sols_per_martian_year_pos]
        linarith
      · push_cast
        rw [div_lt_iff₀ sols_per_martian_year_pos]
        linarith
    rw [h2]
  rw [hfloor]
  have hsol : ((y : Rat) + (s + ds) / sols_per_martian_year - ((y + 1 : Int) : Rat)) *
      sols_per_martian_year = s + ds - sols_per_martian_year := by
    push_cast
    field_simp
    ring
  rw [hsol]

lemma except_ok_bind {e a b : Type} (x : a) (f : a -> Except e b) :
    (Except.ok x >>= f : Except e b) = f x := rfl

/-- Evaluation of `datetime_to_mars_time` on an instant inside tabulated year `y`:
the last candidate pair with non-negative elapsed seconds is `(y, t - startSeconds y)`,
and the result is `MarsTime(y, 0) + MarsTimeDelta(sol=elapsed / seconds_per_sol)`. -/
lemma datetime_to_mars_time_eval (t : Rat) (y : Int) (h1 : -99 <= y) (h2 : y <= 99)
    (h3 : startSeconds y <= t) (h4 : t < startSeconds (y + 1)) :
    datetime_to_mars_time t =
      MarsTime.add (MarsTime.mk y 0)
        (MarsTimeDelta.mk 0 ((t - startSeconds y) / seconds_per_sol)) := by
  have hk0 : (0 : Int) <= y + 99 := by omega
  obtain ⟨k, hky⟩ : ∃ k : Nat, (k : Int) = y + 99 :=
    ⟨(y + 99).toNat, Int.toNat_of_nonneg hk0⟩
  have hsplit : List.range 200 =
      List.range (k + 1) ++ (List.range (199 - k)).map (fun x => (k + 1) + x) := by
    rw [← List.range_add]
    congr 1
    omega
  unfold datetime_to_mars_time tabulated_mars_years
  dsimp only
  rw [hsplit, List.map_append, List.map_append, List.filter_append]
  have hfront : (((List.range (k + 1)).map (fun n : Nat => (n : Int) - 99)).map
      (fun yy : Int => (yy, t - startSeconds yy))).filter (fun p => decide (0 <= p.2)) =
      ((List.range (k + 1)).map (fun n : Nat => (n : Int) - 99)).map
      (fun yy : Int => (yy, t - startSeconds yy)) := by
    rw [List.filter_eq_self]
    intro a ha
    obtain ⟨yy, hyy, rfl⟩ := List.mem_map.mp ha
    obtain ⟨n, hn, rfl⟩ := List.mem_map.mp hyy
    have hn' : n < k + 1 := List.mem_range.mp hn
    have hyb : -99 <= (n : Int) - 99 := by omega
    have hyu : (n : Int) - 99 <= y := by omega
    have hle : startSeconds ((n : Int) - 99) <= t :=
      le_trans (startSeconds_le _ y hyb hyu (by omega)) h3
    simp only [decide_eq_true_eq]
    linarith
  have hback : ((((List.range (199 - k)).map (fun x => (k + 1) + x)).map
      (fun n : Nat => (n : Int) - 99)).map
      (fun yy : Int => (yy, t - startSeconds yy))).filter (fun p => decide (0 <= p.2)) = [] := by
    rw [List.filter_eq_nil]
    intro a ha
    obtain ⟨yy, hyy, rfl⟩ := List.mem_map.mp ha
    obtain ⟨m, hm, rfl⟩ := List.mem_map.mp hyy
    obtain ⟨x, hx, rfl⟩ := List.mem_map.mp hm
    have hx' : x < 199 - k := List.mem_range.mp hx
    have hyb : y + 1 <= ((k + 1 + x : Nat) : Int) - 99 := by push_cast; omega
    have hyu : ((k + 1 + x : Nat) : Int) - 99 <= 100 := by push_cast; omega
    have hgt : t < startSeconds (((k + 1 + x : Nat) : Int) - 99) :=
      lt_of_lt_of_le h4 (startSeconds_le (y + 1) _ (by omega) hyb hyu)
    simp only [decide_eq_true_eq]
    linarith
  rw [hfront, hback, List.append_nil]
  have hlast : (((List.range (k + 1)).map (fun n : Nat => (n : Int) - 99)).map
      (fun yy : Int => (yy, t - startSeconds yy))).getLast? = some (y, t - startSeconds y) := by
    rw [List.range_succ, List.map_append, List.map_append]
    simp only [List.map_cons, List.map_nil]
    rw [List.getLast?_concat]
    have hy : (k : Int) - 99 = y := by omega
    rw [hy]
  rw [hlast]
  show (MarsTime.make y 0 >>= fun mt =>
      MarsTime.add mt (MarsTimeDelta.mk 0 ((t - startSeconds y) / seconds_per_sol))) = _
  rw [make_ok y 0 h1 h2 le_rfl (sols_per_mars_year_nonneg y h1 h2), except_ok_bind]

lemma except_error_bind {e a b : Type} (err : e) (f : a -> Except e b) :
    (Except.error err >>= f : Except e b) = .error err := rfl

lemma startSeconds_m99 : startSeconds (-99) = -85033.149 * seconds_per_day := rfl

lemma startSeconds_m73 : startSeconds (-73) = -67171.880 * seconds_per_day := rfl

lemma startSeconds_m72 : startSeconds (-72) = -66484.880 * seconds_per_day := rfl

lemma startSeconds_m71 : startSeconds (-71) = -65797.930 * seconds_per_day := rfl

lemma startSeconds_0 : startSeconds 0 = -17023.002 * seconds_per_day := rfl

lemma startSeconds_1 : startSeconds 1 = -16336.050 * seconds_per_day := rfl

lemma startSeconds_100 : startSeconds 100 = 51674.083 * seconds_per_day := rfl

/-- C8: for every year outside [-99, 99] (after integer conversion), the `MarsTime`
constructor raises `ValueError` regardless of the sol argument: the year bound is
enforced at construction time, before the sol is even examined. -/
theorem c8_year_out_of_range (year : Int) (sol : Rat) (h : year < -99 ∨ 99 < year) :
    MarsTime.make year sol = .error .valueError := by
  unfold MarsTime.make MarsTime.validate_year
  rw [if_neg (by omega), except_error_bind]

theorem c8_witness : ((99 : Int) < 100) ∧ MarsTime.make 100 0 = .error .valueError :=
  ⟨by omega, c8_year_out_of_range 100 0 (Or.inr (by omega))⟩

/-- C9: every successfully constructed `MarsTime` converts to a datetime without a
lookup error: the constructor restricts the year to [-99, 99] while the epoch table
covers [-99, 100], so the year is always a tabulated key. -/
theorem c9_to_datetime_total (year : Int) (sol : Rat) (mt : MarsTime)
    (h : MarsTime.make year sol = .ok mt) :
    ∃ d : Rat, mars_time_to_datetime mt = .ok d := by
  by_cases hy : -99 <= year ∧ year <= 99
  · rw [make_eq year sol hy.1 hy.2] at h
    by_cases hs : 0 <= sol ∧ sol <= (startSeconds (year + 1) - startSeconds year) / seconds_per_sol
    · rw [if_pos hs] at h
      cases h
      unfold mars_time_to_datetime
      dsimp only
      rw [mars_year_starting_datetimes_eq year hy.1 (by omega)]
      exact ⟨startSeconds year + sol * seconds_per_sol, rfl⟩
    · rw [if_neg hs] at h
      exact Except.noConfusion h
  · unfold MarsTime.make MarsTime.validate_year at h
    rw [if_neg hy, except_error_bind] at h
    exact Except.noConfusion h

theorem c9_witness : MarsTime.make 30 10 = .ok (MarsTime.mk 30 10) ∧
    ∃ d : Rat, mars_time_to_datetime (MarsTime.mk 30 10) = .ok d := by
  have hmk : MarsTime.make 30 10 = .ok (MarsTime.mk 30 10) := by
    apply make_ok 30 10 (by omega) (by omega) (by norm_num)
    have h := startSeconds_lt 30 31 (by omega) (by omega) (by omega)
    have hsps := seconds_per_sol_pos
    rw [le_div_iff₀ hsps]
    have h2 : startSeconds 30 = 3586.124 * seconds_per_day := rfl
    have h3 : startSeconds (30 + 1) = 4273.090 * seconds_per_day := rfl
    rw [h2, h3]
    norm_num [seconds_per_day, seconds_per_sol, hours_per_sol]
  exact ⟨hmk, c9_to_datetime_total 30 10 (MarsTime.mk 30 10) hmk⟩

/-- C7 (amended): `MarsTime` supports no order comparison at all: the class defines
`__eq__` (exact componentwise equality) but no ordering methods, so any order
comparison of two `MarsTime` values raises `TypeError`. -/
theorem c7_no_ordering (a b : MarsTime) :
    MarsTime.lt a b = .error .typeError ∧
    (MarsTime.beq a b = true ↔ a.year = b.year ∧ a.sol = b.sol) := by
  refine ⟨rfl, ?_⟩
  unfold MarsTime.beq
  rw [Bool.and_eq_true, beq_iff_eq, beq_iff_eq]

/-- C7 counterexample: the claim asserts `MarsTime(0,0) < MarsTime(1,0)` evaluates
(to `True`, by the claimed year-then-sol ordering); instead the comparison raises
`TypeError`. -/
theorem c7_counterexample : MarsTime.lt (MarsTime.mk 0 0) (MarsTime.mk 1 0) ≠ .ok true := by
  intro h
  exact Except.noConfusion h

/-- C10: for every instant strictly before the tabulated start of Mars year -99,
`datetime_to_mars_time` raises `IndexError`: the list of candidate years with
non-negative elapsed seconds is empty and its `[-1]` element is taken. -/
theorem c10_index_error (t : Rat) (h : t < startSeconds (-99)) :
    datetime_to_mars_time t = .error .indexError := by
  unfold datetime_to_mars_time tabulated_mars_years
  dsimp only
  have hnil : (((List.range 200).map (fun n : Nat => (n : Int) - 99)).map
      (fun yy : Int => (yy, t - startSeconds yy))).filter (fun p => decide (0 <= p.2)) = [] := by
    rw [List.filter_eq_nil]
    intro a ha
    obtain ⟨yy, hyy, rfl⟩ := List.mem_map.mp ha
    obtain ⟨n, hn, rfl⟩ := List.mem_map.mp hyy
    have hn' : n < 200 := List.mem_range.mp hn
    have hge : startSeconds (-99) <= startSeconds ((n : Int) - 99) :=
      startSeconds_le (-99) _ (by omega) (by omega) (by omega)
    simp only [decide_eq_true_eq]
    linarith
  rw [hnil]
  rfl

theorem c10_witness : (-7430400000 : Rat) < startSeconds (-99) ∧
    datetime_to_mars_time (-7430400000) = .error .indexError := by
  have h : (-7430400000 : Rat) < startSeconds (-99) := by
    rw [startSeconds_m99]
    norm_num [seconds_per_day]
  exact ⟨h, c10_index_error (-7430400000) h⟩

lemma startSeconds_0p1 : startSeconds (0 + 1) = -16336.050 * seconds_per_day := rfl

lemma startSeconds_m73p1 : startSeconds (-73 + 1) = -66484.880 * seconds_per_day := rfl

lemma startSeconds_m72p1 : startSeconds (-72 + 1) = -65797.930 * seconds_per_day := rfl

lemma startSeconds_m73p1p1 : startSeconds (-73 + 1 + 1) = -65797.930 * seconds_per_day := rfl

lemma spy_eval_0 : sols_per_mars_year 0 = some (54956160 / 82199 : Rat) := by
  rw [sols_per_mars_year_eq 0 (by omega) (by omega), startSeconds_0p1, startSeconds_0]
  congr 1
  norm_num [seconds_per_day, seconds_per_sol, hours_per_sol]

lemma spy_eval_m73 : sols_per_mars_year (-73) = some (54960000 / 82199 : Rat) := by
  rw [sols_per_mars_year_eq (-73) (by omega) (by omega), startSeconds_m73p1, startSeconds_m73]
  congr 1
  norm_num [seconds_per_day, seconds_per_sol, hours_per_sol]

/-- C3 (amended): for every tabulated year, the sol domain accepted by the `MarsTime`
constructor is the closed interval `[0, sols_per_year(year)]`: the upper bound is
inclusive, so `MarsTime(Y, sols_per_year(Y))` constructs successfully rather than
raising a range error; values outside the closed interval raise `ValueError`. -/
theorem c3_sol_bound_inclusive (year : Int) (sol q : Rat) (h1 : -99 <= year)
    (h2 : year <= 99) (hq : sols_per_mars_year year = some q) :
    (MarsTime.make year sol = .ok (MarsTime.mk year sol) ↔ 0 <= sol ∧ sol <= q) ∧
    (¬(0 <= sol ∧ sol <= q) → MarsTime.make year sol = .error .valueError) := by
  have hq' : q = (startSeconds (year + 1) - startSeconds year) / seconds_per_sol := by
    rw [sols_per_mars_year_eq year h1 h2] at hq
    exact (Option.some.inj hq).symm
  subst hq'
  rw [make_eq year sol h1 h2]
  refine ⟨⟨?_, ?_⟩, ?_⟩
  · intro h
    by_cases hc : 0 <= sol ∧ sol <= (startSeconds (year + 1) - startSeconds year) / seconds_per_sol
    · exact hc
    · rw [if_neg hc] at h
      exact Except.noConfusion h
  · intro hc
    rw [if_pos hc]
  · intro hc
    rw [if_neg hc]

theorem c3_witness : MarsTime.make 0 1 = .ok (MarsTime.mk 0 1) :=
  ((c3_sol_bound_inclusive 0 1 (54956160 / 82199) (by omega) (by omega) spy_eval_0).1).mpr
    (by norm_num)

/-- C3 counterexample: the claim asserts `MarsTime(0, sols_per_year(0))` raises a
range error (exclusive upper bound); instead the constructor accepts it (the source
checks `0 <= sol <= sols_per_year`, inclusive). -/
theorem c3_counterexample : sols_per_mars_year 0 = some (54956160 / 82199 : Rat) ∧
    MarsTime.make 0 (54956160 / 82199) = .ok (MarsTime.mk 0 (54956160 / 82199)) := by
  refine ⟨spy_eval_0, ?_⟩
  apply make_ok 0 _ (by omega) (by omega) (by norm_num)
  rw [le_div_iff₀ seconds_per_sol_pos, startSeconds_0p1, startSeconds_0]
  norm_num [seconds_per_day, seconds_per_sol, hours_per_sol]

/-- C2 (amended): `MarsTime.__add__` does not loop year-by-year with per-year sol
counts; it converts through fractional years with the single average constant
`sols_per_martian_year`. Consequently adding any sol offset up to `sols_per_year(0)`
(which is below the average) to `MarsTime(0, 0)` stays in year 0 and returns the sol
unchanged, and the exact rollover to `MarsTime(1, 0)` happens at the average
`sols_per_martian_year`, not at the per-year boundary. -/
theorem c2_add_rolls_at_average (s q0 : Rat) (hq : sols_per_mars_year 0 = some q0)
    (hs0 : 0 <= s) (hsq : s <= q0) :
    MarsTime.add (MarsTime.mk 0 0) (MarsTimeDelta.mk 0 s) = .ok (MarsTime.mk 0 s) ∧
    MarsTime.add (MarsTime.mk 0 0) (MarsTimeDelta.mk 0 sols_per_martian_year) =
      .ok (MarsTime.mk 1 0) := by
  have hq0 : q0 = (54956160 / 82199 : Rat) := by
    rw [spy_eval_0] at hq
    exact (Option.some.inj hq).symm
  have hq' : q0 = (startSeconds (0 + 1) - startSeconds 0) / seconds_per_sol := by
    rw [sols_per_mars_year_eq 0 (by omega) (by omega)] at hq
    exact (Option.some.inj hq).symm
  have hsavg : s < sols_per_martian_year := by
    rw [hq0] at hsq
    have : (54956160 / 82199 : Rat) < sols_per_martian_year := by
      norm_num [sols_per_martian_year]
    linarith
  constructor
  · rw [add_eval_stay 0 0 s (by linarith) (by linarith)]
    rw [zero_add]
    exact make_ok 0 s (by omega) (by omega) hs0 (hq' ▸ hsq)
  · rw [add_eval_roll 0 0 sols_per_martian_year
      (by linarith) (by linarith [sols_per_martian_year_pos])]
    have ha : (0 : Rat) + sols_per_martian_year - sols_per_martian_year = 0 := by ring
    rw [ha]
    exact make_ok (0 + 1) 0 (by omega) (by omega) le_rfl
      (sols_per_mars_year_nonneg (0 + 1) (by omega) (by omega))

theorem c2_witness :
    MarsTime.add (MarsTime.mk 0 0) (MarsTimeDelta.mk 0 600) = .ok (MarsTime.mk 0 600) ∧
    MarsTime.add (MarsTime.mk 0 0) (MarsTimeDelta.mk 0 sols_per_martian_year) =
      .ok (MarsTime.mk 1 0) :=
  c2_add_rolls_at_average 600 (54956160 / 82199) spy_eval_0 (by norm_num) (by norm_num)

/-- C2 counterexample: the claim asserts `MarsTime(0,0) + MarsTimeDelta(sol =
sols_per_year(0)) == MarsTime(1, 0)` exactly; instead the sum stays in year 0 with
sol `sols_per_year(0)` (the rollover threshold is the average constant, which is
larger than year 0's own sol count). -/
theorem c2_counterexample : sols_per_mars_year 0 = some (54956160 / 82199 : Rat) ∧
    MarsTime.add (MarsTime.mk 0 0) (MarsTimeDelta.mk 0 (54956160 / 82199)) =
      .ok (MarsTime.mk 0 (54956160 / 82199)) ∧
    MarsTime.mk 0 (54956160 / 82199) ≠ MarsTime.mk 1 0 := by
  refine ⟨spy_eval_0, ?_, ?_⟩
  · rw [add_eval_stay 0 0 _ (by norm_num) (by norm_num [sols_per_martian_year])]
    rw [zero_add]
    apply make_ok 0 _ (by omega) (by omega) (by norm_num)
    rw [le_div_iff₀ seconds_per_sol_pos, startSeconds_0p1, startSeconds_0]
    norm_num [seconds_per_day, seconds_per_sol, hours_per_sol]
  · intro h
    have hy : (0 : Int) = 1 := congrArg MarsTime.year h
    omega

/-- C6 (amended): adding `MarsTimeDelta(0, 0)` to a valid `MarsTime` returns an
equal `MarsTime` (exact equality of year and sol, via `__eq__`) whenever the sol is
below the average-year constant `sols_per_martian_year`; valid sols at or above the
average (possible in longer-than-average years) instead roll into the next year. -/
theorem c6_zero_delta_identity (year : Int) (s q : Rat) (h1 : -99 <= year)
    (h2 : year <= 99) (hq : sols_per_mars_year year = some q) (hs0 : 0 <= s)
    (hsq : s <= q) (hsavg : s < sols_per_martian_year) :
    ∃ mt : MarsTime, MarsTime.add (MarsTime.mk year s) (MarsTimeDelta.mk 0 0) = .ok mt ∧
      MarsTime.beq mt (MarsTime.mk year s) = true := by
  have hq' : q = (startSeconds (year + 1) - startSeconds year) / seconds_per_sol := by
    rw [sols_per_mars_year_eq year h1 h2] at hq
    exact (Option.some.inj hq).symm
  refine ⟨MarsTime.mk year s, ?_, ?_⟩
  · rw [add_eval_stay year s 0 (by linarith) (by linarith)]
    rw [add_zero]
    exact make_ok year s h1 h2 hs0 (hq' ▸ hsq)
  · unfold MarsTime.beq
    rw [Bool.and_eq_true, beq_iff_eq, beq_iff_eq]
    exact ⟨rfl, rfl⟩

theorem c6_witness : ∃ mt : MarsTime,
    MarsTime.add (MarsTime.mk 0 300) (MarsTimeDelta.mk 0 0) = .ok mt ∧
    MarsTime.beq mt (MarsTime.mk 0 300) = true :=
  c6_zero_delta_identity 0 300 (54956160 / 82199) (by omega) (by omega) spy_eval_0
    (by norm_num) (by norm_num) (by norm_num [sols_per_martian_year])

/-- C6 counterexample: `MarsTime(-73, 668.6)` is a valid `MarsTime` (Mars year -73
has about 668.62 sols), yet adding `MarsTimeDelta(0, 0)` does not return an equal
value: the average-based fractional-year arithmetic rolls it into year -72. -/
theorem c6_counterexample :
    MarsTime.make (-73) 668.6 = .ok (MarsTime.mk (-73) 668.6) ∧
    MarsTime.add (MarsTime.mk (-73) 668.6) (MarsTimeDelta.mk 0 0) ≠
      .ok (MarsTime.mk (-73) 668.6) := by
  constructor
  · apply make_ok (-73) _ (by omega) (by omega) (by norm_num)
    rw [le_div_iff₀ seconds_per_sol_pos, startSeconds_m73p1, startSeconds_m73]
    norm_num [seconds_per_day, seconds_per_sol, hours_per_sol]
  · rw [add_eval_roll (-73) 668.6 0 (by norm_num [sols_per_martian_year])
      (by norm_num [sols_per_martian_year])]
    have ha : (668.6 : Rat) + 0 - sols_per_martian_year = 668.6 - sols_per_martian_year := by
      ring
    rw [ha]
    rw [make_ok (-73 + 1) _ (by omega) (by omega) (by norm_num [sols_per_martian_year]) ?hub]
    case hub =>
      rw [le_div_iff₀ seconds_per_sol_pos, startSeconds_m73p1p1, startSeconds_m73p1]
      norm_num [sols_per_martian_year, seconds_per_day, seconds_per_sol, hours_per_sol]
    intro h
    have hy : (-73 + 1 : Int) = -73 := congrArg MarsTime.year (Except.ok.inj h)
    omega

/-- C1 (amended): the two conversions are pure arithmetic (no iteration), and the
round trip `mars_time_to_datetime(datetime_to_mars_time(t))` returns `t` exactly (in
the exact-arithmetic model; "to floating-point precision" in the source) for every
instant `t` in a tabulated year whose elapsed time since the year start is below
`sols_per_martian_year` sols. For instants at least the average number of sols past
the start of a longer-than-average year, the average-based rollover in
`MarsTime.__add__` moves the result into the next tabulated year and the round trip
returns a different instant (see the counterexample). -/
theorem c1_roundtrip_below_average (t : Rat) (y : Int) (h1 : -99 <= y) (h2 : y <= 99)
    (h3 : startSeconds y <= t) (h4 : t < startSeconds (y + 1))
    (h5 : t - startSeconds y < sols_per_martian_year * seconds_per_sol) :
    (datetime_to_mars_time t >>= mars_time_to_datetime) = .ok t := by
  rw [datetime_to_mars_time_eval t y h1 h2 h3 h4]
  have hsps := seconds_per_sol_pos
  have hds0 : 0 <= (t - startSeconds y) / seconds_per_sol :=
    div_nonneg (by linarith) (le_of_lt hsps)
  have hds1 : (t - startSeconds y) / seconds_per_sol < sols_per_martian_year := by
    rw [div_lt_iff₀ hsps]
    linarith
  rw [add_eval_stay y 0 _ (by linarith) (by rw [zero_add]; exact hds1)]
  rw [zero_add]
  have hub : (t - startSeconds y) / seconds_per_sol <=
      (startSeconds (y + 1) - startSeconds y) / seconds_per_sol := by
    rw [div_le_div_iff_of_pos_right hsps]
    linarith
  rw [make_ok y _ h1 h2 hds0 hub, except_ok_bind]
  unfold mars_time_to_datetime
  dsimp only
  rw [mars_year_starting_datetimes_eq y h1 (by omega)]
  show Except.ok (startSeconds y + (t - startSeconds y) / seconds_per_sol * seconds_per_sol) =
    Except.ok t
  congr 1
  rw [div_mul_cancel₀ _ (ne_of_gt hsps)]
  ring

theorem c1_witness :
    (datetime_to_mars_time (-17023.002 * 86400 + 100 * (24.6597 / 24 * 86400)) >>=
      mars_time_to_datetime) = .ok (-17023.002 * 86400 + 100 * (24.6597 / 24 * 86400)) :=
  c1_roundtrip_below_average _ 0 (by omega) (by omega)
    (by rw [startSeconds_0]; norm_num [seconds_per_day])
    (by rw [startSeconds_0p1]; norm_num [seconds_per_day])
    (by
      rw [startSeconds_0]
      norm_num [seconds_per_day, seconds_per_sol, hours_per_sol, sols_per_martian_year])

/-- An instant 668.6 sols after the start of Mars year -73, a year about 668.62 sols
long, so the instant still falls inside year -73 but more than the average
`sols_per_martian_year` past its start. -/
def c1BadInstant : Rat := -67171.880 * 86400 + 668.6 * (24.6597 / 24 * 86400)

/-- C1 counterexample: the round trip is claimed to be the identity (to
floating-point precision) on all of [start of year -99, start of year 100); at
`c1BadInstant` (inside that domain) the round trip instead lands about 2504 seconds
later, because the average-based rollover moves it into year -72. -/
theorem c1_counterexample :
    startSeconds (-99) <= c1BadInstant ∧ c1BadInstant < startSeconds 100 ∧
    (datetime_to_mars_time c1BadInstant >>= mars_time_to_datetime) ≠ .ok c1BadInstant := by
  have hsps := seconds_per_sol_pos
  refine ⟨?_, ?_, ?_⟩
  · rw [startSeconds_m99]
    norm_num [c1BadInstant, seconds_per_day]
  · rw [startSeconds_100]
    norm_num [c1BadInstant, seconds_per_day]
  · have h3 : startSeconds (-73) <= c1BadInstant := by
      rw [startSeconds_m73]
      norm_num [c1BadInstant, seconds_per_day, seconds_per_sol, hours_per_sol]
    have h4 : c1BadInstant < startSeconds (-73 + 1) := by
      rw [startSeconds_m73p1]
      norm_num [c1BadInstant, seconds_per_day, seconds_per_sol, hours_per_sol]
    rw [datetime_to_mars_time_eval c1BadInstant (-73) (by omega) (by omega) h3 h4]
    have hds : (c1BadInstant - startSeconds (-73)) / seconds_per_sol = 668.6 := by
      rw [startSeconds_m73, div_eq_iff (ne_of_gt hsps)]
      norm_num [c1BadInstant, seconds_per_day, seconds_per_sol, hours_per_sol]
    rw [hds]
    rw [add_eval_roll (-73) 0 668.6 (by norm_num [sols_per_martian_year])
      (by norm_num [sols_per_martian_year])]
    have ha : (0 : Rat) + 668.6 - sols_per_martian_year = 668.6 - sols_per_martian_year := by
      ring
    rw [ha]
    have hub : (668.6 : Rat) - sols_per_martian_year <=
        (startSeconds (-73 + 1 + 1) - startSeconds (-73 + 1)) / seconds_per_sol := by
      rw [le_div_iff₀ hsps, startSeconds_m73p1p1, startSeconds_m73p1]
      norm_num [sols_per_martian_year, seconds_per_day, seconds_per_sol, hours_per_sol]
    rw [make_ok (-73 + 1) _ (by omega) (by omega) (by norm_num [sols_per_martian_year]) hub]
    rw [except_ok_bind]
    unfold mars_time_to_datetime
    dsimp only
    rw [mars_year_starting_datetimes_eq (-73 + 1) (by omega) (by omega)]
    show Except.ok (startSeconds (-73 + 1) + (668.6 - sols_per_martian_year) * seconds_per_sol) ≠
      Except.ok c1BadInstant
    intro h
    have hv := Except.ok.inj h
    rw [startSeconds_m73p1] at hv
    norm_num [c1BadInstant, sols_per_martian_year, seconds_per_day, seconds_per_sol,
      hours_per_sol] at hv

/-- Python float modulo in the real-arithmetic model: `a % m = a - m * floor(a / m)`,
which for positive `m` is exactly Python's `%` on floats. -/
noncomputable def pymod (a m : Real) : Real := a - m * (Int.floor (a / m) : Int)

/-- Model of `retimers.solar_longitude_to_sol` (src/mars_time/retimers.py lines 512-564) in
the real-arithmetic model of Python floats: the closed-form (iteration-free)
approximate inverse. The true anomaly gets the fixed perihelion phase offset, the
eccentric anomaly comes from the closed-form relation via `atan`/`tan`, the mean
anomaly from Kepler's equation applied directly, and the result is scaled to sols
and reduced modulo `sols_per_martian_year`. (The emitted accuracy warning has no
bearing on the returned value and is not modelled.) -/
noncomputable def solar_longitude_to_sol (solar_longitude : Real) : Real :=
  let orbital_eccentricity : Real := 0.0935
  let true_anomaly := solar_longitude * Real.pi / 180 + 1.90258341759902
  let eccentric_anomaly := 2 * Real.arctan (Real.tan (0.5 * true_anomaly) /
    Real.sqrt ((1 + orbital_eccentricity) / (1 - orbital_eccentricity)))
  let mean_anomaly := eccentric_anomaly - orbital_eccentricity * Real.sin eccentric_anomaly
  pymod (mean_anomaly / (2 * Real.pi) * (sols_per_martian_year : Real) +
    (perihelion_sol : Real)) (sols_per_martian_year : Real)

/-- A `MarsTime` whose sol lives in the real-arithmetic model (needed because
`from_solar_longitude` feeds the trigonometric inverse into the constructor). -/
structure MarsTimeReal where
  year : Int
  sol : Real

open Classical in
/-- Model of `MarsTime.__init__` in the real-arithmetic model: identical validation to
`MarsTime.make` (year in [-99, 99] first, then `0 <= sol <= sols_per_year` with the
inclusive bounds of `_validate_sol`), with a real-valued sol. -/
noncomputable def MarsTimeReal.make (year : Int) (sol : Real) : Except PyErr MarsTimeReal :=
  if -99 <= year ∧ year <= 99 then
    match sols_per_mars_year year with
    | some sols_per_year =>
        if 0 <= sol ∧ sol <= (sols_per_year : Real) then .ok (MarsTimeReal.mk year sol)
        else .error .valueError
    | none => .error .keyError
  else .error .valueError

/-- Model of `MarsTime.from_solar_longitude` (src/mars_time/retimers.py lines 118-143):
`cls(year, solar_longitude_to_sol(solar_longitude))` -- it constructs the instance
directly from the approximate closed-form inverse. -/
noncomputable def MarsTime.from_solar_longitude (year : Int) (ls : Real) :
    Except PyErr MarsTimeReal :=
  MarsTimeReal.make year (solar_longitude_to_sol ls)

lemma pymod_eq_mul_fract (a m : Real) (hm : m ≠ 0) :
    pymod a m = m * Int.fract (a / m) := by
  unfold pymod Int.fract
  field_simp

lemma pymod_nonneg (a m : Real) (hm : 0 < m) : 0 <= pymod a m := by
  rw [pymod_eq_mul_fract a m (ne_of_gt hm)]
  exact mul_nonneg (le_of_lt hm) (Int.fract_nonneg _)

lemma pymod_lt (a m : Real) (hm : 0 < m) : pymod a m < m := by
  rw [pymod_eq_mul_fract a m (ne_of_gt hm)]
  calc m * Int.fract (a / m) < m * 1 := by
        exact mul_lt_mul_of_pos_left (Int.fract_lt_one _) hm
    _ = m := mul_one m

/-- C5: the approximate inverse is exactly periodic in the solar-longitude argument
with period 360 (in the real-arithmetic model): shifting the longitude by 360 shifts
the half true anomaly by pi, where the tangent is periodic, and every later step
depends on the longitude only through that tangent. -/
theorem c5_periodic_in_360 (x : Real) :
    solar_longitude_to_sol x = solar_longitude_to_sol (x + 360) := by
  have key : Real.tan (0.5 * ((x + 360) * Real.pi / 180 + 1.90258341759902)) =
      Real.tan (0.5 * (x * Real.pi / 180 + 1.90258341759902)) := by
    have harg : 0.5 * ((x + 360) * Real.pi / 180 + 1.90258341759902) =
        0.5 * (x * Real.pi / 180 + 1.90258341759902) + Real.pi := by
      ring
    rw [harg]
    exact Real.tan_periodic _
  unfold solar_longitude_to_sol
  dsimp only
  rw [key]

lemma from_solar_longitude_eval (year : Int) (ls : Real) (q : Rat) (h1 : -99 <= year)
    (h2 : year <= 99) (hq : sols_per_mars_year year = some q)
    (havg : sols_per_martian_year <= q) :
    MarsTime.from_solar_longitude year ls =
      .ok (MarsTimeReal.mk year (solar_longitude_to_sol ls)) := by
  unfold MarsTime.from_solar_longitude MarsTimeReal.make
  rw [if_pos (And.intro h1 h2), hq]
  have havg0 : (0 : Real) < (sols_per_martian_year : Rat) := by
    exact_mod_cast sols_per_martian_year_pos
  have havgR : ((sols_per_martian_year : Rat) : Real) <= (q : Real) := by
    exact_mod_cast havg
  have hmod0 : 0 <= solar_longitude_to_sol ls := pymod_nonneg _ _ havg0
  have hmod1 : solar_longitude_to_sol ls < ((sols_per_martian_year : Rat) : Real) :=
    pymod_lt _ _ havg0
  show (if 0 <= solar_longitude_to_sol ls ∧ solar_longitude_to_sol ls <= (q : Real)
      then (Except.ok (MarsTimeReal.mk year (solar_longitude_to_sol ls)) :
        Except PyErr MarsTimeReal)
      else .error .valueError) = _
  rw [if_pos (And.intro hmod0 (le_trans (le_of_lt hmod1) havgR))]

/-- C4 (amended): `MarsTime.from_solar_longitude(year, ls)` performs no bounded
search against the high-accuracy forward formula; it constructs
`MarsTime(year, solar_longitude_to_sol(ls))` directly from the approximate
closed-form inverse (so the resulting sol is identical for every year). It succeeds
for every longitude whenever the target year's sol count is at least
`sols_per_martian_year` (the inverse always returns a sol in
[0, sols_per_martian_year)). -/
theorem c4_from_solar_longitude_closed_form (year : Int) (ls : Real) (q : Rat)
    (h1 : -99 <= year) (h2 : year <= 99) (hq : sols_per_mars_year year = some q)
    (havg : sols_per_martian_year <= q) :
    MarsTime.from_solar_longitude year ls =
      .ok (MarsTimeReal.mk year (solar_longitude_to_sol ls)) :=
  from_solar_longitude_eval year ls q h1 h2 hq havg

theorem c4_witness : sols_per_martian_year <= (54960000 / 82199 : Rat) ∧
    MarsTime.from_solar_longitude (-73) 180 =
      .ok (MarsTimeReal.mk (-73) (solar_longitude_to_sol 180)) :=
  ⟨by norm_num [sols_per_martian_year],
    c4_from_solar_longitude_closed_form (-73) 180 (54960000 / 82199) (by omega) (by omega)
      spy_eval_m73 (by norm_num [sols_per_martian_year])⟩

lemma startSeconds_m85 : startSeconds (-85) = -75415.524 * seconds_per_day := rfl

lemma startSeconds_m85p1 : startSeconds (-85 + 1) = -74728.550 * seconds_per_day := rfl

lemma spy_eval_m85 : sols_per_mars_year (-85) = some (54957920 / 82199 : Rat) := by
  rw [sols_per_mars_year_eq (-85) (by omega) (by omega), startSeconds_m85p1, startSeconds_m85]
  congr 1
  norm_num [seconds_per_day, seconds_per_sol, hours_per_sol]

/-- C4 counterexample: contrary to the claimed per-year bounded search on the
forward formula (converging to better than 1e-6 day, "rather than using the
approximate closed-form inverse"), the sol returned for longitude 180 is exactly
`solar_longitude_to_sol(180)` -- the approximate closed-form inverse -- and is the
identical value for the two different years -73 and -85. -/
theorem c4_counterexample :
    MarsTime.from_solar_longitude (-73) 180 =
      .ok (MarsTimeReal.mk (-73) (solar_longitude_to_sol 180)) ∧
    MarsTime.from_solar_longitude (-85) 180 =
      .ok (MarsTimeReal.mk (-85) (solar_longitude_to_sol 180)) :=
  ⟨from_solar_longitude_eval (-73) 180 (54960000 / 82199) (by omega) (by omega)
      spy_eval_m73 (by norm_num [sols_per_martian_year]),
    from_solar_longitude_eval (-85) 180 (54957920 / 82199) (by omega) (by omega)
      spy_eval_m85 (by norm_num [sols_per_martian_year])⟩
